import Mathlib

/-!
Verification of the reservation-export automation script (`src/main.py`)
against its natural-language specification.

The script is shallowly embedded: interactive and browser-driven parts are
modelled as pure functions over explicit state and environment records, and
the pandas/JSON pipeline is modelled at the level of the table values it
manipulates.
-/

namespace ResExport

/-! ### Date Input Validator (`get_date_input`, main.py lines 29-49)

The Python code strips the prompt input, checks it against the regex
`^\d{2}-\d{2}-\d{4}$`, then runs `datetime.strptime(s, "%d-%m-%Y")` and on
success returns `[s, parsed.strftime("%d %b %Y").upper()]`.  Digits are
modelled as ASCII digits.  `strptime` accepts exactly the calendar-valid
dates with year in 1..9999 (Python's `MINYEAR`/`MAXYEAR`); `strftime`'s
`%d` is the zero-padded two-digit day, `%b` the three-letter C-locale month
abbreviation, and `%Y` the year as an unpadded decimal number (glibc
behaviour, so years below 1000 render with fewer than four digits). -/

/-- Numeric value of an ASCII digit character. -/
def digitVal (c : Char) : Nat := c.toNat - 48

/-- The ASCII digit character for `d < 10` (models decimal rendering). -/
def digitChar (d : Nat) : Char := Char.ofNat (48 + d)

/-- Parse a string of the exact shape `DD-MM-YYYY` (the regex
`^\d{2}-\d{2}-\d{4}$`) into its day, month and year numbers; `none` when
the string does not match the pattern. -/
def parseDate (s : String) : Option (Nat × Nat × Nat) :=
  match s.data with
  | [d1, d2, '-', m1, m2, '-', y1, y2, y3, y4] =>
    if d1.isDigit && d2.isDigit && m1.isDigit && m2.isDigit &&
       y1.isDigit && y2.isDigit && y3.isDigit && y4.isDigit then
      some (digitVal d1 * 10 + digitVal d2,
            digitVal m1 * 10 + digitVal m2,
            ((digitVal y1 * 10 + digitVal y2) * 10 + digitVal y3) * 10 + digitVal y4)
    else none
  | _ => none

/-- Whether the input matches the `DD-MM-YYYY` regex. -/
def matchesPattern (s : String) : Bool := (parseDate s).isSome

/-- Proleptic-Gregorian leap year, as used by `datetime`. -/
def isLeapYear (y : Nat) : Bool :=
  y % 4 == 0 && (y % 100 != 0 || y % 400 == 0)

/-- Number of days of month `m` in year `y` (used by `datetime`'s
constructor validation). -/
def daysInMonth (m y : Nat) : Nat :=
  if m = 2 then (if isLeapYear y then 29 else 28)
  else if m = 4 ∨ m = 6 ∨ m = 9 ∨ m = 11 then 30
  else 31

/-- `datetime.strptime(s, "%d-%m-%Y")` succeeds exactly on calendar-valid
dates with year in `MINYEAR..MAXYEAR = 1..9999`. -/
def validCalendarDate (d m y : Nat) : Bool :=
  1 ≤ y && y ≤ 9999 && 1 ≤ m && m ≤ 12 && 1 ≤ d && d ≤ daysInMonth m y

/-- Unpadded decimal rendering of a natural number, most significant digit
first (models `strftime`'s `%Y` on glibc); the fuel argument bounds the
recursion and is always at least the number itself at the call site. -/
def natDecimalAux : Nat → Nat → List Char
  | 0, _ => []
  | fuel + 1, n =>
    if n = 0 then []
    else natDecimalAux fuel (n / 10) ++ [digitChar (n % 10)]

/-- Decimal rendering of a natural number without padding. -/
def natDecimal (n : Nat) : String :=
  if n = 0 then "0" else ⟨natDecimalAux n n⟩

/-- Zero-padded two-digit rendering (models `strftime`'s `%d`; the day is
always below 100). -/
def pad2 (n : Nat) : String := ⟨[digitChar (n / 10), digitChar (n % 10)]⟩

/-- Upper-cased three-letter month abbreviation: `%b` in the C locale
followed by `.upper()`. -/
def monthAbbrev (m : Nat) : String :=
  if m = 1 then "JAN" else if m = 2 then "FEB" else if m = 3 then "MAR"
  else if m = 4 then "APR" else if m = 5 then "MAY" else if m = 6 then "JUN"
  else if m = 7 then "JUL" else if m = 8 then "AUG" else if m = 9 then "SEP"
  else if m = 10 then "OCT" else if m = 11 then "NOV" else "DEC"

/-- `parsed_date.strftime("%d %b %Y").upper()`. -/
def formatDisplay (d m y : Nat) : String :=
  pad2 d ++ " " ++ monthAbbrev m ++ " " ++ natDecimal y

/-- Outcome of one validation attempt in `get_date_input`'s loop. -/
inductive DateResult where
  | invalidFormat
  | invalidCalendarDate
  | accepted (canonical display : String)
  deriving DecidableEq, Repr

/-- One iteration of `get_date_input` on an already-stripped candidate
input: format check first (regex), then the calendar check via `strptime`;
on success return the pair `[user_input, formatted_date]`. -/
def get_date_input (user_input : String) : DateResult :=
  match parseDate user_input with
  | none => .invalidFormat
  | some (d, m, y) =>
    if validCalendarDate d m y then
      .accepted user_input (formatDisplay d m y)
    else .invalidCalendarDate

/-- Spec-side shape of the display form: exactly 11 characters — two
digits, a space, three upper-case letters, a space, four digits. -/
def isDisplayShape (s : String) : Bool :=
  match s.data with
  | [a, b, sp1, c1, c2, c3, sp2, e1, e2, e3, e4] =>
    a.isDigit && b.isDigit && sp1 == ' ' &&
    c1.isUpper && c2.isUpper && c3.isUpper && sp2 == ' ' &&
    e1.isDigit && e2.isDigit && e3.isDigit && e4.isDigit
  | _ => false

/-! ### Tabular Normalizer (`download_and_parse_csv`, main.py lines 116-174)

`pd.read_csv` parses the response body into a table of rows keyed by the
header; empty or absent cells become `NaN`.  Line 159 then runs
`df.where(pd.notnull(df), None).convert_dtypes()`: the `where` replaces
`NaN` with `None`, but `convert_dtypes()` converts each column to a
nullable dtype whose missing value is `pd.NA` — so after line 159 a
missing cell holds `pd.NA` again, and `to_dict(orient="records")` leaves
`pd.NA` in the records.  `json.dump` serializes strings (and `None`) but
raises `TypeError` on `pd.NA`.
`df[[col for col in columns_to_keep if col in df.columns]]` projects onto
the allow-list columns present in the header, in allow-list order, and
`to_dict(orient="records")` yields one key-value record per row in row
order. -/

/-- A downloaded CSV table: the header row of column names and the data
rows of raw cell strings (a row shorter than the header leaves its
trailing cells absent). -/
structure RawCsv where
  header : List String
  rows : List (List String)
  deriving DecidableEq, Repr

/-- The fixed allow-list of columns (`columns_to_keep`, lines 140-157). -/
def columns_to_keep : List String :=
  ["Status", "Guest first name", "Guest last name", "Booking reference",
   "Source", "Occupants", "Check in date", "Check out date", "Booked",
   "ETA", "Rooms", "Payment total", "Payment outstanding", "Invoice Number",
   "Guest email", "Guest phone number"]

/-- A cell value as it stands in the records built at line 163: a
non-empty source cell keeps its string; an empty or absent cell is `NaN`
after `pd.read_csv`, briefly `None` through `where(pd.notnull(df), None)`,
and `pd.NA` again after `convert_dtypes()` — which is the value
`to_dict(orient="records")` leaves in the record. -/
inductive CellValue where
  | na
  | str (s : String)
  deriving DecidableEq, Repr

/-- Whether `json.dump` can serialize the value: it handles strings (and
`None`) but raises `TypeError` on `pd.NA`. -/
def CellValue.jsonSerializable : CellValue → Bool
  | .na => false
  | .str _ => true

/-- Value of cell `i` of a parsed row after the full line-159 pipeline
(`read_csv`, `where(pd.notnull(df), None)`, `convert_dtypes()`): `pd.NA`
when the source cell is empty or absent, otherwise the cell's string. -/
def readCell (row : List String) (i : Nat) : CellValue :=
  match row.get? i with
  | some v => if v = "" then .na else .str v
  | none => .na

/-- The allow-list columns that are present in the table's header, in
allow-list order (`[col for col in columns_to_keep if col in df.columns]`). -/
def keptColumns (header : List String) : List String :=
  columns_to_keep.filter (fun c => header.contains c)

/-- One output record: an ordered list of field-name/value pairs, a value
being either a string or the `pd.NA` missing marker. -/
abbrev Record := List (String × CellValue)

/-- The record produced for one data row: the kept columns in order, each
paired with the row's (null-coerced) cell under that header column. -/
def makeRecord (header : List String) (row : List String) : Record :=
  (keptColumns header).map (fun c => (c, readCell row (header.indexOf c)))

/-- The full normalization `to_dict(orient="records")` output: one record
per data row, in row order. -/
def normalize (t : RawCsv) : List Record :=
  t.rows.map (makeRecord t.header)

/-- Whether `json.dump` can serialize the record list: true exactly when
no record holds a `pd.NA` value (any missing cell in a kept column makes
serialization raise `TypeError`). -/
def recordsSerializable (recs : List Record) : Bool :=
  recs.all fun r => r.all fun p => p.2.jsonSerializable

/-! ### Filter Applicator (`apply_date_filters`, main.py lines 88-114)

The function stores `old_url = driver.current_url`, clears and fills the
two date inputs, clicks the submit button — upon which the application
re-navigates, deterministically for fixed current location and submitted
dates (query-string mutation) — and then blocks until
`driver.current_url != old_url`, bounded by a 30-second timeout that the
wait turns into an error (`FilterTimeout`) on expiry. -/

/-- The browser's observable state relevant to the filter form: the
navigable location and the contents of the two date-filter inputs. -/
structure BrowserState where
  url : String
  dateFromField : String
  dateToField : String
  deriving DecidableEq, Repr

/-- Result of one `apply_date_filters` call: the new browser state, or
the timeout error when the location never changes from the captured one. -/
inductive FilterResult where
  | ok (s : BrowserState)
  | filterTimeout
  deriving DecidableEq, Repr

/-- `apply_date_filters`: `nav` is the target application's response to
the form submission — the location navigated to as a function of the
current location and the two submitted display-form dates.  The wait
succeeds exactly when that target differs from the captured location. -/
def apply_date_filters (nav : String → String → String → String)
    (s : BrowserState) (date_from date_to : String) : FilterResult :=
  let old_url := s.url
  let new_url := nav old_url date_from date_to
  if new_url ≠ old_url then
    .ok { url := new_url, dateFromField := date_from, dateToField := date_to }
  else .filterTimeout

/-! ### Workflow (`run_scraper` and `download_and_parse_csv`,
main.py lines 116-205)

`run_scraper` prompts for the two dates, checks
`all([WEBSITE_URL, USER_EMAIL, USER_PASS])` (a clean return on failure),
then inside `try` creates the driver, logs in, navigates, applies the
filters and downloads; `except Exception` catches any stage error, and
`finally` quits the driver whenever it was assigned.  Each browser-driven
stage is abstracted to whether it completes or raises;
`download_and_parse_csv`'s own data path is modelled in full. -/

/-- HTTP response to the export GET: the status code, and the body parsed
as CSV (`none` models a `pd.read_csv` parse failure). -/
structure HttpResponse where
  status : Nat
  csv : Option RawCsv
  deriving DecidableEq, Repr

/-- Environment of one `download_and_parse_csv` call: whether the export
link becomes present within the wait, the download response, and whether
the incremental file writes of `json.dump` succeed (`json.dump` can fail
with an I/O error even on serializable data — and it always runs after
`open(..., "w")` has already created the file). -/
structure DownloadEnv where
  exportPresent : Bool
  response : HttpResponse
  writeOk : Bool
  deriving DecidableEq, Repr

/-- State of the output file: created but not completely written, or
completely written with the serialized record list. -/
inductive FileState where
  | incomplete
  | complete (records : List Record)
  deriving DecidableEq, Repr

/-- Outcome of `download_and_parse_csv`. -/
inductive DownloadOutcome where
  | presenceTimeout
  | downloadFailed (status : Nat)
  | parseError
  | serializeError
  | ok (records : List Record)
  deriving DecidableEq, Repr

/-- `reservations_{date_from}_to_{date_to}.json` (line 168). -/
def output_filename (date_from date_to : String) : String :=
  "reservations_" ++ date_from ++ "_to_" ++ date_to ++ ".json"

/-- `download_and_parse_csv`, called with the two canonical date strings:
find the export link, GET it (`raise_for_status` raises on any status of
400 or above), parse, normalize, then open the output file for writing
and serialize into it.  `json.dump` completes exactly when the records
hold no `pd.NA` value and the writes succeed; it runs after
`open(..., "w")`, so a serialization failure leaves an incomplete file.
The second component is the output file's final state (`none` when it was
never created). -/
def download_and_parse_csv (env : DownloadEnv) (date_from date_to : String) :
    DownloadOutcome × Option (String × FileState) :=
  if ¬ env.exportPresent then (.presenceTimeout, none)
  else if 400 ≤ env.response.status then (.downloadFailed env.response.status, none)
  else
    match env.response.csv with
    | none => (.parseError, none)
    | some t =>
      let records := normalize t
      let fname := output_filename date_from date_to
      if recordsSerializable records && env.writeOk then
        (.ok records, some (fname, .complete records))
      else (.serializeError, some (fname, .incomplete))

/-- The three configuration reads (`os.getenv`, lines 18-20): `none`
models an unset variable; Python truthiness treats the empty string the
same as an unset value. -/
structure ConfigEnv where
  website_url : Option String
  user_email : Option String
  user_pass : Option String
  deriving DecidableEq, Repr

/-- Python truthiness of a string. -/
def strTruthy (s : String) : Bool := s ≠ ""

/-- Python truthiness of an optional string (`None` is falsy). -/
def optTruthy : Option String → Bool
  | none => false
  | some s => strTruthy s

/-- `WEBSITE_URL = os.getenv("WEBSITE_URL") or "https://app.littlehotelier.com/"`
(line 18): the hardcoded default is substituted whenever the environment
value is unset or falsy (empty). -/
def WEBSITE_URL (cfg : ConfigEnv) : String :=
  match cfg.website_url with
  | some s => if strTruthy s then s else "https://app.littlehotelier.com/"
  | none => "https://app.littlehotelier.com/"

/-- Environment of one `run_scraper` call: the configuration, whether
each browser-driven step completes or raises, and the download stage's
environment.  `initialize_driver` (lines 53-58) is two separate steps:
`webdriver.Chrome()` creates the browser session, and
`driver.maximize_window()` is a further driver call that can itself raise
after the session already exists. -/
structure ScraperEnv where
  cfg : ConfigEnv
  chromeOk : Bool
  maximizeOk : Bool
  loginOk : Bool
  navOk : Bool
  filterOk : Bool
  dl : DownloadEnv
  deriving DecidableEq, Repr

/-- Observable outcome of one `run_scraper` call. -/
structure ScraperResult where
  sessionCreated : Bool
  sessionClosed : Bool
  missingConfigExit : Bool
  errorCaught : Bool
  file : Option (String × FileState)
  records : Option (List Record)
  deriving DecidableEq, Repr

/-- `run_scraper` (lines 176-205), after the two interactive
`get_date_input` loops returned the `[canonical, display]` pairs
`date_from` and `date_to`: check the configuration (clean early return on
a falsy value), then `try` driver creation, login, the Reservations
click, `apply_date_filters` on the display forms and
`download_and_parse_csv` on the canonical forms; `except` catches any
stage exception and `finally` quits the driver exactly when it was
assigned (`if driver:`).  `driver` is assigned only when
`initialize_driver` returns, so when `webdriver.Chrome()` creates the
session but `maximize_window()` then raises, the `finally` block sees
`driver is None` and the live session is never quit. -/
def run_scraper (e : ScraperEnv) (date_from date_to : String × String) :
    ScraperResult :=
  if ¬ (strTruthy (WEBSITE_URL e.cfg) && optTruthy e.cfg.user_email &&
        optTruthy e.cfg.user_pass) then
    { sessionCreated := false, sessionClosed := false, missingConfigExit := true,
      errorCaught := false, file := none, records := none }
  else if ¬ e.chromeOk then
    { sessionCreated := false, sessionClosed := false, missingConfigExit := false,
      errorCaught := true, file := none, records := none }
  else if ¬ e.maximizeOk then
    { sessionCreated := true, sessionClosed := false, missingConfigExit := false,
      errorCaught := true, file := none, records := none }
  else if ¬ e.loginOk then
    { sessionCreated := true, sessionClosed := true, missingConfigExit := false,
      errorCaught := true, file := none, records := none }
  else if ¬ e.navOk then
    { sessionCreated := true, sessionClosed := true, missingConfigExit := false,
      errorCaught := true, file := none, records := none }
  else if ¬ e.filterOk then
    { sessionCreated := true, sessionClosed := true, missingConfigExit := false,
      errorCaught := true, file := none, records := none }
  else
    match download_and_parse_csv e.dl date_from.1 date_to.1 with
    | (.ok records, file) =>
      { sessionCreated := true, sessionClosed := true, missingConfigExit := false,
        errorCaught := false, file := file, records := some records }
    | (.presenceTimeout, file) | (.downloadFailed _, file)
    | (.parseError, file) | (.serializeError, file) =>
      { sessionCreated := true, sessionClosed := true, missingConfigExit := false,
        errorCaught := true, file := file, records := none }

end ResExport

namespace ResExport

theorem natDecimalAux_zero (fuel : Nat) : natDecimalAux fuel 0 = [] := by
  cases fuel <;> simp [natDecimalAux]

theorem digitChar_isDigit {d : Nat} (h : d < 10) : (digitChar d).isDigit = true := by
  interval_cases d <;> decide

theorem natDecimalAux_four {f n : Nat} (h1 : 1000 ≤ n) (h2 : n < 10000) :
    natDecimalAux (f + 4) n =
      [digitChar (n / 1000), digitChar (n / 100 % 10),
       digitChar (n / 10 % 10), digitChar (n % 10)] := by
  have hn : n ≠ 0 := by omega
  have h10 : n / 10 ≠ 0 := by omega
  have h100 : n / 100 ≠ 0 := by omega
  have h1000 : n / 1000 ≠ 0 := by omega
  have h10000 : n / 10 / 10 / 10 / 10 = 0 := by omega
  have e1 : n / 10 / 10 = n / 100 := by omega
  have e2 : n / 100 / 10 = n / 1000 := by omega
  have e3 : n / 1000 % 10 = n / 1000 := by omega
  have e4 : n / 1000 / 10 = 0 := by omega
  simp only [natDecimalAux, hn, if_neg, ite_false, e1, h10, e2, h100, h1000, e3, e4,
    natDecimalAux_zero]
  simp

theorem natDecimal_four {n : Nat} (h1 : 1000 ≤ n) (h2 : n < 10000) :
    (natDecimal n).data =
      [digitChar (n / 1000), digitChar (n / 100 % 10),
       digitChar (n / 10 % 10), digitChar (n % 10)] := by
  have hn : n ≠ 0 := by omega
  obtain ⟨f, rfl⟩ : ∃ f, n = f + 4 := ⟨n - 4, by omega⟩
  simp only [natDecimal, hn, if_neg, ite_false]
  exact natDecimalAux_four h1 h2

theorem pad2_data (n : Nat) :
    (pad2 n).data = [digitChar (n / 10), digitChar (n % 10)] := rfl

theorem monthAbbrev_shape {m : Nat} (h1 : 1 ≤ m) (h2 : m ≤ 12) :
    ∃ a b c, (monthAbbrev m).data = [a, b, c] ∧
      a.isUpper = true ∧ b.isUpper = true ∧ c.isUpper = true := by
  interval_cases m <;>
    exact ⟨_, _, _, rfl, by decide, by decide, by decide⟩

theorem formatDisplay_data {d m y : Nat} :
    (formatDisplay d m y).data =
      (pad2 d).data ++ ' ' :: (monthAbbrev m).data ++ ' ' :: (natDecimal y).data := by
  simp [formatDisplay, String.data_append]

theorem formatDisplay_shape {d m y : Nat} (hd : d < 100)
    (hm1 : 1 ≤ m) (hm2 : m ≤ 12) (hy1 : 1000 ≤ y) (hy2 : y < 10000) :
    isDisplayShape (formatDisplay d m y) = true ∧
    (formatDisplay d m y).length = 11 := by
  obtain ⟨a, b, c, habc, ha, hb, hc⟩ := monthAbbrev_shape hm1 hm2
  have hdata : (formatDisplay d m y).data =
      [digitChar (d / 10), digitChar (d % 10), ' ', a, b, c, ' ',
       digitChar (y / 1000), digitChar (y / 100 % 10),
       digitChar (y / 10 % 10), digitChar (y % 10)] := by
    rw [formatDisplay_data, pad2_data, habc, natDecimal_four hy1 hy2]
    rfl
  have g1 : (digitChar (d / 10)).isDigit = true := digitChar_isDigit (by omega)
  have g2 : (digitChar (d % 10)).isDigit = true := digitChar_isDigit (by omega)
  have g3 : (digitChar (y / 1000)).isDigit = true := digitChar_isDigit (by omega)
  have g4 : (digitChar (y / 100 % 10)).isDigit = true := digitChar_isDigit (by omega)
  have g5 : (digitChar (y / 10 % 10)).isDigit = true := digitChar_isDigit (by omega)
  have g6 : (digitChar (y % 10)).isDigit = true := digitChar_isDigit (by omega)
  have hmk : formatDisplay d m y = ⟨(formatDisplay d m y).data⟩ := rfl
  constructor
  · rw [hmk, hdata]
    simp [isDisplayShape, g1, g2, g3, g4, g5, g6, ha, hb, hc]
  · rw [hmk, hdata, String.length_mk]
    rfl

theorem daysInMonth_le_31 (m y : Nat) : daysInMonth m y ≤ 31 := by
  unfold daysInMonth
  split
  · split <;> omega
  · split <;> omega

theorem validCalendarDate_bounds {d m y : Nat}
    (h : validCalendarDate d m y = true) :
    1 ≤ y ∧ y ≤ 9999 ∧ 1 ≤ m ∧ m ≤ 12 ∧ 1 ≤ d ∧ d < 100 := by
  simp only [validCalendarDate, Bool.and_eq_true, decide_eq_true_eq] at h
  have := daysInMonth_le_31 m y
  omega

/-- C3 (amended): every accepted input round-trips: the canonical form is
the input string unchanged; and whenever the year is at least 1000, the
display form is exactly 11 characters of the shape two digits, space,
three upper-case letters, space, four digits.  (For accepted years below
1000 — e.g. `01-01-0005` — `%Y` renders without padding and the display is
shorter; see the counterexample.) -/
theorem c3_roundtrip_display (s c disp : String) (d m y : Nat)
    (hp : parseDate s = some (d, m, y))
    (h : get_date_input s = .accepted c disp) :
    c = s ∧ (1000 ≤ y → isDisplayShape disp = true ∧ disp.length = 11) := by
  simp only [get_date_input, hp] at h
  by_cases hv : validCalendarDate d m y = true
  · rw [if_pos hv] at h
    cases h
    obtain ⟨_, hy2, hm1, hm2, _, hd⟩ := validCalendarDate_bounds hv
    exact ⟨rfl, fun hy1 => formatDisplay_shape hd hm1 hm2 hy1 (by omega)⟩
  · rw [if_neg hv] at h
    cases h

/-- C3 counterexample: the input `01-01-0005` is accepted by the validator
(it matches the regex and `strptime` accepts year 5), its canonical form
round-trips, but its display form is `01 JAN 5`, which has 8 characters,
not 11. -/
theorem c3_counterexample :
    get_date_input "01-01-0005" = .accepted "01-01-0005" "01 JAN 5" ∧
    ¬ (("01 JAN 5" : String).length = 11) := by
  constructor
  · decide
  · decide

/-- C4: the validator's classification is exactly: non-matching strings
are rejected as invalid format (independently of any calendar property);
strings matching `DD-MM-YYYY` whose numbers do not form a real calendar
date are rejected as invalid calendar dates; all remaining strings are
accepted. -/
theorem c4_classification (s : String) (d m y : Nat) :
    (matchesPattern s = false → get_date_input s = .invalidFormat) ∧
    (parseDate s = some (d, m, y) → validCalendarDate d m y = false →
      get_date_input s = .invalidCalendarDate) ∧
    (parseDate s = some (d, m, y) → validCalendarDate d m y = true →
      get_date_input s = .accepted s (formatDisplay d m y)) := by
  refine ⟨fun hf => ?_, fun hp hv => ?_, fun hp hv => ?_⟩
  · unfold get_date_input
    unfold matchesPattern at hf
    cases hpd : parseDate s with
    | none => rfl
    | some v => rw [hpd] at hf; simp at hf
  · simp only [get_date_input, hp]
    rw [if_neg (by simp [hv])]
  · simp only [get_date_input, hp]
    rw [if_pos hv]

/-- C4 witness: a concrete input for each branch of the classification. -/
theorem c4_witness :
    get_date_input "2025-10-22" = .invalidFormat ∧
    get_date_input "30-02-2025" = .invalidCalendarDate ∧
    get_date_input "22-10-2025" = .accepted "22-10-2025" (formatDisplay 22 10 2025) :=
  ⟨(c4_classification "2025-10-22" 0 0 0).1 (by decide),
   (c4_classification "30-02-2025" 30 2 2025).2.1 (by decide) (by decide),
   (c4_classification "22-10-2025" 22 10 2025).2.2 (by decide) (by decide)⟩

/-- C3 witness: the theorem applied at the concrete input `22-10-2025`,
whose display form is `22 OCT 2025`. -/
theorem c3_witness :
    ("22-10-2025" : String) = "22-10-2025" ∧
    isDisplayShape "22 OCT 2025" = true ∧ ("22 OCT 2025" : String).length = 11 :=
  ⟨(c3_roundtrip_display "22-10-2025" "22-10-2025" "22 OCT 2025" 22 10 2025
      (by decide) (by decide)).1,
   (c3_roundtrip_display "22-10-2025" "22-10-2025" "22 OCT 2025" 22 10 2025
      (by decide) (by decide)).2 (by omega)⟩

/-- C8: normalization preserves row order — for every table and every
index `i`, record `i` of the output is exactly the normalization of row
`i` of the downloaded CSV (and the persisted file stores this same record
list). -/
theorem c8_row_order (t : RawCsv) (i : Nat) :
    (normalize t).get? i = (t.rows.get? i).map (makeRecord t.header) := by
  simp [normalize]

/-- C5: every output record consists of exactly the allow-list columns
that also occur in the table's header, in the allow-list's order; columns
outside the allow-list are dropped and allow-list columns absent from the
header are omitted, and normalization is total (no error in either
direction). -/
theorem c5_projection (t : RawCsv) (rec : Record) (h : rec ∈ normalize t) :
    rec.map Prod.fst = columns_to_keep.filter (fun c => t.header.contains c) ∧
    (∀ c : String, c ∈ rec.map Prod.fst ↔ (c ∈ columns_to_keep ∧ c ∈ t.header)) := by
  obtain ⟨row, _, rfl⟩ := List.mem_map.mp h
  have hfst : (makeRecord t.header row).map Prod.fst = keptColumns t.header := by
    unfold makeRecord
    rw [List.map_map]
    exact List.map_id _
  refine ⟨hfst, fun c => ?_⟩
  rw [hfst]
  unfold keptColumns
  rw [List.mem_filter]
  simp [List.contains, List.elem_iff]

/-- C5 witness: a concrete header containing an out-of-allow-list column
(`Extra1`) and missing most allow-list columns. -/
theorem c5_witness :
    (makeRecord ["Status", "Guest first name", "Extra1"]
        ["confirmed", "Bob", "x"]).map Prod.fst =
      columns_to_keep.filter
        (fun c => (["Status", "Guest first name", "Extra1"] : List String).contains c) ∧
    (∀ c : String,
      c ∈ (makeRecord ["Status", "Guest first name", "Extra1"]
          ["confirmed", "Bob", "x"]).map Prod.fst ↔
        (c ∈ columns_to_keep ∧ c ∈ (["Status", "Guest first name", "Extra1"] : List String))) :=
  c5_projection ⟨["Status", "Guest first name", "Extra1"], [["confirmed", "Bob", "x"]]⟩
    _ (List.mem_map.mpr ⟨["confirmed", "Bob", "x"], by simp, rfl⟩)

/-- C1 (code bug): the claim matches the evident intent of line 159's
`where(pd.notnull(df), None)`, but `convert_dtypes()` turns the inserted
nulls back into `pd.NA`.  At the failing input — an export with header
`Status, Guest first name` and the single row `confirmed,` (empty second
cell) — the record's `Guest first name` field holds `pd.NA`, `json.dump`
raises on it even with all writes succeeding, the call ends in a
serialization error with an incomplete output file, and the record list
is never returned: the missing cell never appears as an explicit null in
the persisted file, and the run crashes instead. -/
theorem c1_missing_cell_crash :
    (makeRecord ["Status", "Guest first name"] ["confirmed", ""]).lookup
      "Guest first name" = some .na ∧
    recordsSerializable
      (normalize ⟨["Status", "Guest first name"], [["confirmed", ""]]⟩) = false ∧
    (download_and_parse_csv
        ⟨true, ⟨200, some ⟨["Status", "Guest first name"], [["confirmed", ""]]⟩⟩, true⟩
        "01-01-2025" "31-01-2025").1 = .serializeError ∧
    (download_and_parse_csv
        ⟨true, ⟨200, some ⟨["Status", "Guest first name"], [["confirmed", ""]]⟩⟩, true⟩
        "01-01-2025" "31-01-2025").2 =
      some (output_filename "01-01-2025" "31-01-2025", .incomplete) := by
  refine ⟨by decide, by decide, by decide, by decide⟩

/-- C2 counterexample: with the application's re-navigation target
determined by the submitted filter (the query-string encodes the date
range), the first application from the bare list view succeeds, but the
repeated application in succession navigates to the location already
shown, the wait for a location change can never succeed, and the second
application fails with the filter timeout — refuting "applying the same
date range twice in succession ... succeeds both times". -/
theorem c2_counterexample :
    apply_date_filters (fun _ f t => "https://x/reservations?from=" ++ f ++ "&to=" ++ t)
      ⟨"https://x/reservations", "", ""⟩ "01 JAN 2025" "31 JAN 2025" =
      .ok ⟨"https://x/reservations?from=01 JAN 2025&to=31 JAN 2025",
           "01 JAN 2025", "31 JAN 2025"⟩ ∧
    apply_date_filters (fun _ f t => "https://x/reservations?from=" ++ f ++ "&to=" ++ t)
      ⟨"https://x/reservations?from=01 JAN 2025&to=31 JAN 2025",
       "01 JAN 2025", "31 JAN 2025"⟩ "01 JAN 2025" "31 JAN 2025" =
      .filterTimeout := by
  constructor
  · decide
  · decide

/-- C2 (amended): filter application is deterministic — identical inputs
from an identical starting location yield the identical result — but
applying the same range twice in succession is never idempotent: since
the completion wait demands a change of location, whenever the second of
two successive applications succeeds at all, its resulting location
necessarily differs from the location the first application reached. -/
theorem c2_not_idempotent (nav : String → String → String → String)
    (s s1 s2 : BrowserState) (date_from date_to : String)
    (h1 : apply_date_filters nav s date_from date_to = .ok s1)
    (h2 : apply_date_filters nav s1 date_from date_to = .ok s2) :
    apply_date_filters nav s date_from date_to = .ok s1 ∧ s2.url ≠ s1.url := by
  refine ⟨h1, ?_⟩
  unfold apply_date_filters at h2
  by_cases hne : nav s1.url date_from date_to ≠ s1.url
  · rw [if_pos hne] at h2
    cases h2
    exact hne
  · rw [if_neg hne] at h2
    cases h2

/-- C2 witness: a second successive application that does succeed (the
navigation target here appends a fragment, so the location always
changes) reaches a location different from the first one. -/
theorem c2_witness :
    apply_date_filters (fun u _ _ => u ++ "?r") ⟨"https://x/reservations", "", ""⟩
      "01 JAN 2025" "31 JAN 2025" =
      .ok ⟨"https://x/reservations?r", "01 JAN 2025", "31 JAN 2025"⟩ ∧
    (BrowserState.mk "https://x/reservations?r?r" "01 JAN 2025" "31 JAN 2025").url ≠
    (BrowserState.mk "https://x/reservations?r" "01 JAN 2025" "31 JAN 2025").url :=
  c2_not_idempotent (fun u _ _ => u ++ "?r")
    ⟨"https://x/reservations", "", ""⟩
    ⟨"https://x/reservations?r", "01 JAN 2025", "31 JAN 2025"⟩
    ⟨"https://x/reservations?r?r", "01 JAN 2025", "31 JAN 2025"⟩
    "01 JAN 2025" "31 JAN 2025" (by decide) (by decide)

/-- C6 counterexample: when `webdriver.Chrome()` creates the session but
`driver.maximize_window()` then raises inside `initialize_driver`,
`run_scraper`'s `driver` variable is never assigned, the `finally` block
sees `driver is None`, and the live session is never closed — refuting
"a session is never leaked". -/
theorem c6_counterexample :
    (run_scraper ⟨⟨some "https://u", some "user", some "pw"⟩, true, false, true, true,
        true, ⟨true, ⟨200, none⟩, true⟩⟩
      ("01-01-2025", "01 JAN 2025")
      ("31-01-2025", "31 JAN 2025")).sessionCreated = true ∧
    (run_scraper ⟨⟨some "https://u", some "user", some "pw"⟩, true, false, true, true,
        true, ⟨true, ⟨200, none⟩, true⟩⟩
      ("01-01-2025", "01 JAN 2025")
      ("31-01-2025", "31 JAN 2025")).sessionClosed = false := by
  refine ⟨by decide, by decide⟩

/-- C6 (amended): on every exit path on which the driver handle was
assigned — that is, `initialize_driver` returned, with both
`webdriver.Chrome()` and `maximize_window()` completing — the session is
closed, whether the run succeeded or any later stage (login, navigation,
filtering, download, serialization) raised; but when `maximize_window()`
raises after the session was created, the handle is never assigned and
the session leaks. -/
theorem c6_session_cleanup (e : ScraperEnv) (date_from date_to : String × String)
    (hm : e.maximizeOk = true)
    (h : (run_scraper e date_from date_to).sessionCreated = true) :
    (run_scraper e date_from date_to).sessionClosed = true := by
  unfold run_scraper at h ⊢
  repeat' split at h <;> first | rfl | simp_all

/-- C6 witness: a run whose login stage raises (for instance an
authentication timeout) after a fully initialized driver still closes the
session. -/
theorem c6_witness :
    (run_scraper ⟨⟨some "https://u", some "user", some "pw"⟩, true, true, false, true,
        true, ⟨true, ⟨200, none⟩, true⟩⟩
      ("01-01-2025", "01 JAN 2025") ("31-01-2025", "31 JAN 2025")).sessionClosed = true :=
  c6_session_cleanup _ _ _ (by decide) (by decide)

/-- C7 counterexample: a run in which the export download and the parse
succeed but `json.dump` raises partway leaves an output file behind — the
file is created by `open(..., "w")` before serialization — refuting "if
normalization does not complete ... no output file is written". -/
theorem c7_counterexample :
    (download_and_parse_csv ⟨true, ⟨200, some ⟨["Status"], [["confirmed"]]⟩⟩, false⟩
        "01-01-2025" "31-01-2025").1 = .serializeError ∧
    (download_and_parse_csv ⟨true, ⟨200, some ⟨["Status"], [["confirmed"]]⟩⟩, false⟩
        "01-01-2025" "31-01-2025").2 =
      some (output_filename "01-01-2025" "31-01-2025", .incomplete) := by
  constructor
  · decide
  · decide

/-- C7 (amended): if the export link never appears, the download returns
a non-success status, or parsing fails, no output file is written; a
complete output file exists exactly on full success — but a serialization
failure happens after the file was created, so it can leave an incomplete
file behind. -/
theorem c7_no_partial_success (env : DownloadEnv) (date_from date_to : String)
    (st : Nat) (fname : String) (records : List Record) :
    ((download_and_parse_csv env date_from date_to).1 = .presenceTimeout →
      (download_and_parse_csv env date_from date_to).2 = none) ∧
    ((download_and_parse_csv env date_from date_to).1 = .downloadFailed st →
      (download_and_parse_csv env date_from date_to).2 = none) ∧
    ((download_and_parse_csv env date_from date_to).1 = .parseError →
      (download_and_parse_csv env date_from date_to).2 = none) ∧
    ((download_and_parse_csv env date_from date_to).2 =
        some (fname, .complete records) →
      (download_and_parse_csv env date_from date_to).1 = .ok records) := by
  unfold download_and_parse_csv
  by_cases hp : env.exportPresent = true
  · by_cases hs : 400 ≤ env.response.status
    · simp [hp, hs]
    · cases hc : env.response.csv with
      | none => simp [hp, hs, hc]
      | some t =>
        by_cases hj : (recordsSerializable (normalize t) && env.writeOk) = true
        · simp [hp, hs, hc, hj]
        · simp [hp, hs, hc, hj]
  · simp [hp]

/-- C7 witness: a 404 response yields no output file. -/
theorem c7_witness :
    (download_and_parse_csv ⟨true, ⟨404, none⟩, true⟩ "01-01-2025" "31-01-2025").2 =
      none :=
  (c7_no_partial_success ⟨true, ⟨404, none⟩, true⟩ "01-01-2025" "31-01-2025"
    404 "" []).2.1 (by decide)

theorem download_ok_file (env : DownloadEnv) (date_from date_to : String)
    (records : List Record)
    (h : (download_and_parse_csv env date_from date_to).1 = .ok records) :
    (download_and_parse_csv env date_from date_to).2 =
      some (output_filename date_from date_to, .complete records) := by
  unfold download_and_parse_csv at h ⊢
  by_cases hp : env.exportPresent = true
  · by_cases hs : 400 ≤ env.response.status
    · simp [hp, hs] at h
    · cases hc : env.response.csv with
      | none => simp [hp, hs, hc] at h
      | some t =>
        by_cases hj : (recordsSerializable (normalize t) && env.writeOk) = true
        · simp [hp, hs, hc, hj] at h ⊢
          exact h
        · simp [hp, hs, hc, hj] at h
  · simp [hp] at h

/-- C9: a successful run with validated dates writes exactly one output
file, and its name is `reservations_{from}_to_{to}.json` built from the
two canonical `DD-MM-YYYY` strings alone (so re-running with the same
range yields the same name). -/
theorem c9_output_file (e : ScraperEnv) (s1 s2 c1 d1 c2 d2 : String)
    (records : List Record)
    (h1 : get_date_input s1 = .accepted c1 d1)
    (h2 : get_date_input s2 = .accepted c2 d2)
    (hok : (run_scraper e (c1, d1) (c2, d2)).records = some records) :
    (run_scraper e (c1, d1) (c2, d2)).file =
      some ("reservations_" ++ c1 ++ "_to_" ++ c2 ++ ".json", .complete records) := by
  unfold run_scraper at hok ⊢
  repeat' split at hok <;> simp_all
  rename_i heq
  have := download_ok_file e.dl c1 c2 records (by rw [heq])
  rw [heq] at this
  simpa [output_filename] using this

/-- C9 witness: a fully successful concrete run writes the single file
`reservations_01-01-2025_to_31-01-2025.json`. -/
theorem c9_witness :
    (run_scraper ⟨⟨none, some "user", some "pw"⟩, true, true, true, true, true,
        ⟨true, ⟨200, some ⟨["Status"], [["confirmed"]]⟩⟩, true⟩⟩
      ("01-01-2025", "01 JAN 2025") ("31-01-2025", "31 JAN 2025")).file =
      some ("reservations_" ++ "01-01-2025" ++ "_to_" ++ "31-01-2025" ++ ".json",
        .complete [[("Status", .str "confirmed")]]) :=
  c9_output_file _ "01-01-2025" "31-01-2025" "01-01-2025" "01 JAN 2025"
    "31-01-2025" "31 JAN 2025" [[("Status", .str "confirmed")]]
    (by decide) (by decide) (by decide)

/-- C10: the computed website URL is never falsy — when the environment
variable is unset the hardcoded default is substituted — so the
missing-configuration exit can fire only for a missing (or empty) login
identity or secret, and an absent target-URL setting alone never triggers
it. -/
theorem c10_missing_config (e : ScraperEnv) (date_from date_to : String × String) :
    strTruthy (WEBSITE_URL e.cfg) = true ∧
    (e.cfg.website_url = none →
      WEBSITE_URL e.cfg = "https://app.littlehotelier.com/") ∧
    ((run_scraper e date_from date_to).missingConfigExit = true ↔
      (optTruthy e.cfg.user_email = false ∨ optTruthy e.cfg.user_pass = false)) := by
  have hdef : strTruthy "https://app.littlehotelier.com/" = true := by decide
  have hurl : strTruthy (WEBSITE_URL e.cfg) = true := by
    cases h : e.cfg.website_url with
    | none => simp [WEBSITE_URL, h, hdef]
    | some s =>
      by_cases hs : strTruthy s = true
      · simp [WEBSITE_URL, h, hs]
      · simp [WEBSITE_URL, h, hs, hdef]
  refine ⟨hurl, fun h => ?_, ?_⟩
  · unfold WEBSITE_URL
    rw [h]
  · unfold run_scraper
    repeat' split <;> simp_all
    rename_i himp
    cases he : optTruthy e.cfg.user_email with
    | false => exact Or.inl rfl
    | true => exact Or.inr (himp he)

/-- C10 witness: with the URL variable unset and the secret empty, the
default URL is used and the missing-configuration exit fires (because of
the secret, not the URL). -/
theorem c10_witness :
    WEBSITE_URL ⟨none, some "user", some ""⟩ = "https://app.littlehotelier.com/" ∧
    (run_scraper ⟨⟨none, some "user", some ""⟩, true, true, true, true, true,
        ⟨true, ⟨200, none⟩, true⟩⟩
      ("01-01-2025", "01 JAN 2025") ("31-01-2025", "31 JAN 2025")).missingConfigExit =
      true :=
  ⟨(c10_missing_config ⟨⟨none, some "user", some ""⟩, true, true, true, true, true,
      ⟨true, ⟨200, none⟩, true⟩⟩
      ("01-01-2025", "01 JAN 2025") ("31-01-2025", "31 JAN 2025")).2.1 rfl,
   (c10_missing_config ⟨⟨none, some "user", some ""⟩, true, true, true, true, true,
      ⟨true, ⟨200, none⟩, true⟩⟩
      ("01-01-2025", "01 JAN 2025") ("31-01-2025", "31 JAN 2025")).2.2.mpr
     (Or.inr rfl)⟩

end ResExport
